import Mathlib

set_option maxRecDepth 400000

/-
Verification development for the OpenID Connect middleware
(`middleware_openid.go`): a shallow embedding of the middleware's
request-processing logic, provider configuration, and context
propagation, together with theorems about the claims of the
specification.

Modelling conventions:
  * Go machine integers that matter here are bytes and 32/64-bit words;
    they are modelled as `Nat` with explicit `% 2^w` reductions.
  * Go `map` values are modelled as association lists with a
    replace-or-append update (`assocSet`) and first-match lookup
    (`assocGet`); Go maps have unique keys, which `assocSet` preserves.
  * A Go dynamic value (`interface{}`) appearing as a JWT claim value is
    modelled by `GoVal`.  The only dynamic inspections the source
    performs on an audience-array element is the type assertion
    `audVal.(string)`, so an array element is modelled by
    `Option String`: `some s` when the element is the string `s`, `none`
    when it is any non-string value (on which the assertion panics).
  * External collaborators (session manager, policy engine, the
    `openid` validation library) are inputs to the embedded functions;
    calls to them are recorded in an explicit `Trace`.
  * A Go runtime panic (failed type assertion) is modelled by the
    `PRStatus.panic` outcome.
-/

/-! ## Association lists (the model of Go maps) -/

def assocGet {κ α : Type} [DecidableEq κ] (m : List (κ × α)) (k : κ) : Option α :=
  match m with
  | [] => none
  | (k', v) :: rest => if k = k' then some v else assocGet rest k

def assocSet {κ α : Type} [DecidableEq κ] (m : List (κ × α)) (k : κ) (v : α) :
    List (κ × α) :=
  match m with
  | [] => [(k, v)]
  | (k', v') :: rest => if k = k' then (k, v) :: rest else (k', v') :: assocSet rest k v

/-! ## Go dynamic values (JWT claim values) -/

inductive GoVal where
  | vnil
  | vstr (s : String)
  | vnum (n : Int)
  | varr (xs : List (Option String))
  deriving DecidableEq, Repr

/-- Go's two-result map read `v, ok := m[k]`: a missing key yields the
zero value of `interface\x7b\x7d`, i.e. `nil`, together with `false`. -/
def mapGet2 (m : List (String × GoVal)) (k : String) : GoVal × Bool :=
  match assocGet m k with
  | some v => (v, true)
  | none => (GoVal.vnil, false)

/-- Go type assertion `v.(string)`: `none` models the runtime panic on a
`nil` or non-string dynamic value. -/
def assertString : GoVal → Option String
  | .vstr s => some s
  | _ => none

/-! ## UTF-8 encoding of strings (Go strings are UTF-8 byte sequences) -/

def utf8EncodeCharNat (c : Char) : List Nat :=
  let n := c.toNat
  if n < 128 then [n]
  else if n < 2048 then [192 + n / 64, 128 + n % 64]
  else if n < 65536 then [224 + n / 4096, 128 + (n / 64) % 64, 128 + n % 64]
  else [240 + n / 262144, 128 + (n / 4096) % 64, 128 + (n / 64) % 64, 128 + n % 64]

def utf8Bytes (s : String) : List Nat :=
  s.data.foldr (fun c acc => utf8EncodeCharNat c ++ acc) []

/-! ## MD5 (RFC 1321), as used by `crypto/md5` + `fmt.Sprintf("%x", _)` -/

def M32 : Nat := 4294967296

def add32 (a b : Nat) : Nat := (a + b) % M32

def not32 (x : Nat) : Nat := Nat.xor x 4294967295

def rotl32 (x n : Nat) : Nat := Nat.lor ((x <<< n) % M32) (x >>> (32 - n))

def mixF (b c d : Nat) : Nat := Nat.lor (Nat.land b c) (Nat.land (not32 b) d)

def mixG (b c d : Nat) : Nat := Nat.lor (Nat.land b d) (Nat.land c (not32 d))

def mixH (b c d : Nat) : Nat := Nat.xor b (Nat.xor c d)

def mixI (b c d : Nat) : Nat := Nat.xor c (Nat.lor b (not32 d))

def md5K : List Nat :=
  [0xd76aa478, 0xe8c7b756, 0x242070db, 0xc1bdceee,
   0xf57c0faf, 0x4787c62a, 0xa8304613, 0xfd469501,
   0x698098d8, 0x8b44f7af, 0xffff5bb1, 0x895cd7be,
   0x6b901122, 0xfd987193, 0xa679438e, 0x49b40821,
   0xf61e2562, 0xc040b340, 0x265e5a51, 0xe9b6c7aa,
   0xd62f105d, 0x02441453, 0xd8a1e681, 0xe7d3fbc8,
   0x21e1cde6, 0xc33707d6, 0xf4d50d87, 0x455a14ed,
   0xa9e3e905, 0xfcefa3f8, 0x676f02d9, 0x8d2a4c8a,
   0xfffa3942, 0x8771f681, 0x6d9d6122, 0xfde5380c,
   0xa4beea44, 0x4bdecfa9, 0xf6bb4b60, 0xbebfbc70,
   0x289b7ec6, 0xeaa127fa, 0xd4ef3085, 0x04881d05,
   0xd9d4d039, 0xe6db99e5, 0x1fa27cf8, 0xc4ac5665,
   0xf4292244, 0x432aff97, 0xab9423a7, 0xfc93a039,
   0x655b59c3, 0x8f0ccc92, 0xffeff47d, 0x85845dd1,
   0x6fa87e4f, 0xfe2ce6e0, 0xa3014314, 0x4e0811a1,
   0xf7537e82, 0xbd3af235, 0x2ad7d2bb, 0xeb86d391]

def md5S : List Nat :=
  [7, 12, 17, 22, 7, 12, 17, 22, 7, 12, 17, 22, 7, 12, 17, 22,
   5, 9, 14, 20, 5, 9, 14, 20, 5, 9, 14, 20, 5, 9, 14, 20,
   4, 11, 16, 23, 4, 11, 16, 23, 4, 11, 16, 23, 4, 11, 16, 23,
   6, 10, 15, 21, 6, 10, 15, 21, 6, 10, 15, 21, 6, 10, 15, 21]

/-- Little-endian 32-bit words of a byte list. -/
def leWords : List Nat → List Nat
  | b0 :: b1 :: b2 :: b3 :: rest =>
      (b0 + 256 * b1 + 65536 * b2 + 16777216 * b3) :: leWords rest
  | _ => []

def md5Round (X : List Nat) (st : Nat × Nat × Nat × Nat) (i : Nat) :
    Nat × Nat × Nat × Nat :=
  match st with
  | (a, b, c, d) =>
    let fg : Nat × Nat :=
      if i < 16 then (mixF b c d, i)
      else if i < 32 then (mixG b c d, (5 * i + 1) % 16)
      else if i < 48 then (mixH b c d, (3 * i + 5) % 16)
      else (mixI b c d, (7 * i) % 16)
    let tmp := add32 (add32 (add32 a fg.1) (md5K.getD i 0)) (X.getD fg.2 0)
    (d, add32 b (rotl32 tmp (md5S.getD i 0)), b, c)

def md5Block (st : Nat × Nat × Nat × Nat) (block : List Nat) :
    Nat × Nat × Nat × Nat :=
  let X := leWords block
  match st, (List.range 64).foldl (md5Round X) st with
  | (a0, b0, c0, d0), (a, b, c, d) =>
      (add32 a0 a, add32 b0 b, add32 c0 c, add32 d0 d)

def md5Pad (msg : List Nat) : List Nat :=
  let len := msg.length
  let k := (119 - len % 64) % 64
  let bitLen := (len * 8) % 18446744073709551616
  msg ++ [128] ++ List.replicate k 0 ++
    (List.range 8).map (fun i => (bitLen >>> (8 * i)) % 256)

/-- Split a byte list into 64-byte blocks (structurally, one byte at a
time, so that the definition reduces definitionally): `cur` is the
current block accumulated in reverse. -/
def chunksGo (cur : List Nat) : List Nat → List (List Nat)
  | [] => if cur.isEmpty then [] else [cur.reverse]
  | b :: rest =>
    if cur.length = 63 then (b :: cur).reverse :: chunksGo [] rest
    else chunksGo (b :: cur) rest

def chunks64 (l : List Nat) : List (List Nat) := chunksGo [] l

def md5Digest (msg : List Nat) : List Nat :=
  match (chunks64 (md5Pad msg)).foldl md5Block
      (0x67452301, 0xefcdab89, 0x98badcfe, 0x10325476) with
  | (a, b, c, d) =>
      ((List.range 4).map (fun i => (a >>> (8 * i)) % 256)) ++
      ((List.range 4).map (fun i => (b >>> (8 * i)) % 256)) ++
      ((List.range 4).map (fun i => (c >>> (8 * i)) % 256)) ++
      ((List.range 4).map (fun i => (d >>> (8 * i)) % 256))

def hexChar (n : Nat) : Char :=
  if n < 10 then Char.ofNat (48 + n) else Char.ofNat (87 + n)

def bytesToHex (bs : List Nat) : String :=
  String.mk (bs.foldr (fun b acc => hexChar (b / 16) :: hexChar (b % 16) :: acc) [])

/-- Lowercase-hex MD5 digest of a string, i.e. Go's
`fmt.Sprintf("%x", md5.Sum([]byte(s)))`. -/
def md5hex (s : String) : String := bytesToHex (md5Digest (utf8Bytes s))

/-! ## Base64 (`encoding/base64` StdEncoding decoding, with Go's
partial-output-on-error behaviour) -/

def b64Val (c : Char) : Option Nat :=
  if 65 ≤ c.toNat ∧ c.toNat ≤ 90 then some (c.toNat - 65)
  else if 97 ≤ c.toNat ∧ c.toNat ≤ 122 then some (c.toNat - 97 + 26)
  else if 48 ≤ c.toNat ∧ c.toNat ≤ 57 then some (c.toNat - 48 + 52)
  else if c = '+' then some 62
  else if c = '/' then some 63
  else none

/-- Decode base64 quanta of four characters.  Mirrors Go's
`Encoding.Decode` for `StdEncoding`: an invalid character aborts with the
bytes of the preceding complete quanta; `=` padding is accepted in the
last quantum only (data following a padded quantum is an error, but the
padded quantum's bytes are still produced); a trailing group of fewer
than four characters is an error contributing no bytes. -/
def b64DecodeQuanta : List Char → List Nat × Bool
  | [] => ([], true)
  | c0 :: c1 :: c2 :: c3 :: rest =>
    match b64Val c0, b64Val c1 with
    | some v0, some v1 =>
      (match b64Val c2, b64Val c3 with
       | some v2, some v3 =>
         let bytes := [(v0 <<< 2 ||| v1 >>> 4) % 256,
                       ((v1 % 16) <<< 4 ||| v2 >>> 2) % 256,
                       ((v2 % 4) <<< 6 ||| v3) % 256]
         match b64DecodeQuanta rest with
         | (bs, ok) => (bytes ++ bs, ok)
       | some v2, none =>
         if c3 = '=' then
           ([(v0 <<< 2 ||| v1 >>> 4) % 256, ((v1 % 16) <<< 4 ||| v2 >>> 2) % 256],
            rest.isEmpty)
         else ([], false)
       | none, _ =>
         if c2 = '=' ∧ c3 = '=' then ([(v0 <<< 2 ||| v1 >>> 4) % 256], rest.isEmpty)
         else ([], false))
    | _, _ => ([], false)
  | _ => ([], false)

/-- Go `base64.StdEncoding.DecodeString`: returns the decoded byte
prefix together with a success flag (`false` models a non-nil error).
Newline characters are skipped, as Go's decoder does. -/
def base64DecodeGo (s : String) : List Nat × Bool :=
  b64DecodeQuanta (s.data.filter (fun c => !(c = '\n' || c = '\r')))

/-- Go's `string(b)` on decoded bytes.  Go keeps the raw bytes; for the
ASCII byte range (the range exercised here) mapping each byte to the
character of the same code point agrees with Go. -/
def stringOfBytes (bs : List Nat) : String := String.mk (bs.map Char.ofNat)

/-! ## Data model of the middleware -/

/-- The parts of the gateway session object this middleware constructs
or inspects (`SessionState` in the source).  `Template` stands for the
access-rights content produced by the policy engine
(`generateSessionFromPolicy`), which is opaque to this middleware;
`MetaData` and `Alias` are the fields the middleware itself writes. -/
structure SessionState where
  Template : String
  MetaData : List (String × String)
  Alias : String
  deriving DecidableEq, Repr

/-- The `apidef.AuthTypeEnum` values relevant to this middleware
(`BaseIdentityProvidedBy`); `AuthToken` stands for any value other than
`OIDCUser` and `UnsetAuth`. -/
inductive AuthTypeEnum where
  | OIDCUser
  | UnsetAuth
  | AuthToken
  deriving DecidableEq, Repr

/-- Keys of the gorilla request-scoped context used by this middleware. -/
inductive CtxKey where
  | SessionData
  | AuthHeaderValue
  | ContextData
  deriving DecidableEq, Repr

/-- Values stored in the gorilla request-scoped context. -/
inductive CtxVal where
  | session (s : SessionState)
  | str (s : String)
  | dataMap (m : List (String × GoVal))
  deriving DecidableEq, Repr

abbrev Ctx : Type := List (CtxKey × CtxVal)

/-- The verified identity and token produced by
`openid.AuthenticateOIDWithUser` on success: `user.ID` and the token's
`jwt.MapClaims`. -/
structure UserToken where
  UserID : String
  Claims : List (String × GoVal)
  deriving DecidableEq, Repr

/-- The static and external state `ProcessRequest` reads: the
middleware's issuer → (client → policy) map, the API spec fields it
consults, and the external session manager / policy engine.
`updateSucceeds` models whether the session manager's
`UpdateSession` call succeeds; the source discards that call's outcome
(line 202), so `ProcessRequest` never reads this field. -/
structure Env where
  provider_client_policymap : List (String × List (String × String))
  OrgID : String
  SegregateByClient : Bool
  EnableContextVars : Bool
  BaseIdentityProvidedBy : AuthTypeEnum
  sessionStore : List (String × SessionState)
  policyEngine : String → String → Option SessionState
  sessionLifetime : Int
  updateSucceeds : Bool

/-- Record of the calls `ProcessRequest` makes to its collaborators,
plus the final request context. -/
structure Trace where
  loginFailures : List String
  healthKeyFailures : Nat
  sessionLookups : List String
  policyEngineCalls : List (String × String)
  upserts : List (String × SessionState × Int)
  sessionUsed : Option SessionState
  ctx : Ctx
  deriving DecidableEq, Repr

def emptyTrace (r : Ctx) : Trace :=
  { loginFailures := [], healthKeyFailures := 0, sessionLookups := [],
    policyEngineCalls := [], upserts := [], sessionUsed := none, ctx := r }

/-- Outcome of `ProcessRequest`: the Go `(error, int)` pair, or a
runtime panic from a failed type assertion. -/
inductive PRStatus where
  | response (err : Option String) (code : Nat)
  | panic
  deriving DecidableEq, Repr

/-- Mirror of `reportLoginFailure` (lines 218-229): one audit
login-failure event with the given identifier and one health key-failure
report. -/
def reportLoginFailure (tykId : String) (t : Trace) : Trace :=
  { t with loginFailures := t.loginFailures ++ [tykId],
           healthKeyFailures := t.healthKeyFailures + 1 }

/-- Mirror of the audience `switch` (lines 140-157).  `none` models the
panic of `audVal.(string)` on a non-string array element; a string
audience uses the Go map read with its `""` default; any other dynamic
type leaves both results at their `""` initial values. -/
def audienceLoop (clientSet : List (String × String)) :
    List (Option String) → Option (String × String)
  | [] => some ("", "")
  | a :: rest =>
    match a with
    | some s =>
      match assocGet clientSet s with
      | some policy => some (s, policy)
      | none => audienceLoop clientSet rest
    | none => none

def resolveAudience (clientSet : List (String × String)) (clients : GoVal) :
    Option (String × String) :=
  match clients with
  | .vstr v => some (v, (assocGet clientSet v).getD "")
  | .varr xs => audienceLoop clientSet xs
  | _ => some ("", "")

/-- Mirror of the session-identifier derivation (lines 167-174). -/
def sessionIDFor (env : Env) (clientID userID : String) : String :=
  if env.SegregateByClient then
    env.OrgID ++ md5hex clientID ++ md5hex userID
  else
    env.OrgID ++ md5hex userID

/-- Mirror of the claim-flattening loop (lines 240-243): each claim is
written into the context-data object under the `"jwt_claims_"` name. -/
def flattenClaims (claims : List (String × GoVal)) (m : List (String × GoVal)) :
    List (String × GoVal) :=
  claims.foldl (fun acc kv => assocSet acc ("jwt_claims_" ++ kv.1) kv.2) m

/-- Mirror of `setContextVars` (lines 231-253).  Returns `none` when the
`cnt.(map[string]interface\x7b\x7d)` assertion would panic (a
`ContextData` entry that is not a data map). -/
def setContextVars (env : Env) (r : Ctx) (tok : UserToken) : Option Ctx :=
  if env.EnableContextVars then
    match assocGet r CtxKey.ContextData with
    | none => some r
    | some (.dataMap contextDataObject) =>
      let obj1 := flattenClaims tok.Claims contextDataObject
      let authHeaderValue : GoVal :=
        match assocGet r CtxKey.AuthHeaderValue with
        | some (.str s) => .vstr s
        | _ => .vnil
      some (assocSet r CtxKey.ContextData (.dataMap (assocSet obj1 "token" authHeaderValue)))
    | some _ => none
  else some r

/-- Mirror of the `switch` at lines 208-212: the session and identifier
are published into the request context only when this middleware is the
designated base identity provider. -/
def publishIdentity (env : Env) (r : Ctx) (sessionID : String)
    (sessionState : SessionState) : Ctx :=
  match env.BaseIdentityProvidedBy with
  | .OIDCUser =>
      assocSet (assocSet r CtxKey.SessionData (.session sessionState))
        CtxKey.AuthHeaderValue (.str sessionID)
  | .UnsetAuth =>
      assocSet (assocSet r CtxKey.SessionData (.session sessionState))
        CtxKey.AuthHeaderValue (.str sessionID)
  | .AuthToken => r

/-- Mirror of steps at lines 207-215: publish the session into the
request context when this middleware is the base identity provider,
then flatten claims. -/
def finalize (env : Env) (r : Ctx) (tok : UserToken) (sessionID : String)
    (sessionState : SessionState) (t : Trace) : PRStatus × Trace :=
  match setContextVars env (publishIdentity env r sessionID sessionState) tok with
  | none => (.panic, { t with sessionUsed := some sessionState,
                              ctx := publishIdentity env r sessionID sessionState })
  | some ctx2 => (.response none 200, { t with sessionUsed := some sessionState, ctx := ctx2 })

/-- Mirror of lines 159-215 of `ProcessRequest`, from the
empty-policy check through session materialization, starting from the
resolved `(clientID, policyID)` pair. -/
def materialize (env : Env) (r : Ctx) (tok : UserToken)
    (clientID policyID : String) : PRStatus × Trace :=
  if policyID = "" then
    (.response (some "Key not authorised") 403,
     reportLoginFailure "[NOT GENERATED]" (emptyTrace r))
  else
    let sessionID := sessionIDFor env clientID tok.UserID
    let t1 := { emptyTrace r with sessionLookups := [sessionID] }
    match assocGet env.sessionStore sessionID with
    | some sessionState => finalize env r tok sessionID sessionState t1
    | none =>
      let t2 := { t1 with policyEngineCalls := [(policyID, env.OrgID)] }
      match env.policyEngine policyID env.OrgID with
      | none =>
        (.response (some "Key not authorized: no matching policy") 403,
         reportLoginFailure sessionID t2)
      | some newSessionState =>
        let sessionState :=
          { newSessionState with
              MetaData := [("TykJWTSessionID", sessionID), ("ClientID", clientID)],
              Alias := clientID ++ ":" ++ tok.UserID }
        let t3 := { t2 with upserts := [(sessionID, sessionState, env.sessionLifetime)] }
        finalize env r tok sessionID sessionState t3

/-- Mirror of `ProcessRequest` (lines 104-216).  `auth` models the
result of `openid.AuthenticateOIDWithUser`: `none` is the halt signal,
`some tok` a verified user and token. -/
def ProcessRequest (env : Env) (r : Ctx) (auth : Option UserToken) :
    PRStatus × Trace :=
  match auth with
  | none =>
    (.response (some "Key not authorised") 403,
     reportLoginFailure "[JWT]" (emptyTrace r))
  | some tok =>
    if !(mapGet2 tok.Claims "iss").2 && !(mapGet2 tok.Claims "aud").2 then
      (.response (some "Key not authorised") 403,
       reportLoginFailure "[NOT GENERATED]" (emptyTrace r))
    else
      match assertString (mapGet2 tok.Claims "iss").1 with
      | none => (.panic, emptyTrace r)
      | some issStr =>
        match assocGet env.provider_client_policymap issStr with
        | none =>
          (.response (some "Key not authorised") 403,
           reportLoginFailure "[NOT GENERATED]" (emptyTrace r))
        | some clientSet =>
          match resolveAudience clientSet (mapGet2 tok.Claims "aud").1 with
          | none => (.panic, emptyTrace r)
          | some (clientID, policyID) =>
            materialize env r tok clientID policyID

/-! ## Provider configuration (`getProviders`, lines 50-89) -/

/-- One entry of `Spec.OpenIDOptions.Providers`: an issuer and its
base64-encoded-clientID → policyID map (modelled in iteration order). -/
structure OIDProviderConfig where
  Issuer : String
  ClientIDs : List (String × String)
  deriving DecidableEq, Repr

/-- Mirror of the map insertion at lines 63-69. -/
def insertClient (m : List (String × List (String × String)))
    (iss clientID policyID : String) : List (String × List (String × String)) :=
  match assocGet m iss with
  | none => assocSet m iss [(clientID, policyID)]
  | some clientSet => assocSet m iss (assocSet clientSet clientID policyID)

/-- Result of `getProviders`: the providers successfully registered with
the validation library (issuer together with the client array passed to
`openid.NewProvider`), and the updated shared policy map. -/
structure ProvidersResult where
  providers : List (String × List String)
  policymap : List (String × List (String × String))
  deriving DecidableEq, Repr

/-- Mirror of `getProviders` (lines 50-89).  `newProviderOk` models
whether `openid.NewProvider` succeeds for a given issuer and client
array; a failing provider is skipped but its map entries remain.  The
base64 decode error at line 60 is discarded by the source, so the
partially-decoded client identifier is used either way. -/
def getProviders (newProviderOk : String → List String → Bool)
    (cfgs : List OIDProviderConfig)
    (m0 : List (String × List (String × String))) : ProvidersResult :=
  cfgs.foldl
    (fun acc provider =>
      let processed := provider.ClientIDs.foldl
        (fun (st : List (String × List (String × String)) × List String) kv =>
          let clientID := stringOfBytes (base64DecodeGo kv.1).1
          (insertClient st.1 provider.Issuer clientID kv.2, st.2 ++ [clientID]))
        (acc.policymap, [])
      if newProviderOk provider.Issuer processed.2 then
        { providers := acc.providers ++ [(provider.Issuer, processed.2)],
          policymap := processed.1 }
      else
        { providers := acc.providers, policymap := processed.1 })
    { providers := [], policymap := m0 }

/-- The client identifier actually used by `getProviders` for a
configured transport-encoded client: the (possibly partial) base64
decode, with the decode error discarded (line 60-61). -/
def decodedClient (cid : String) : String := stringOfBytes (base64DecodeGo cid).1

/-- The client array a provider's registration request carries
(`providerClientArray`, lines 56-73): the decoded form of every
configured client of that provider, in configuration order. -/
def clientArrayOf (p : OIDProviderConfig) : List String :=
  p.ClientIDs.map (fun kv => decodedClient kv.1)

/-- The per-provider map contribution: every configured client of `p`
inserted under its decoded identifier, in configuration order. -/
def insertProviderClients (m : List (String × List (String × String)))
    (p : OIDProviderConfig) : List (String × List (String × String)) :=
  p.ClientIDs.foldl (fun acc kv => insertClient acc p.Issuer (decodedClient kv.1) kv.2) m

/-- The providers successfully registered with the validation library:
each provider is kept or dropped by `newProviderOk` applied to its own
issuer and client array only (lines 76-85). -/
def registeredProviders (ok : String → List String → Bool) :
    List OIDProviderConfig → List (String × List String)
  | [] => []
  | p :: rest =>
    if ok p.Issuer (clientArrayOf p) then
      (p.Issuer, clientArrayOf p) :: registeredProviders ok rest
    else
      registeredProviders ok rest

/-! ## Concrete instances for witnesses and counterexamples -/

/-- A concrete configuration: one registered issuer with two clients, a
policy engine knowing pol-42 and pol-43, an empty session store. -/
def testEnv : Env :=
  { provider_client_policymap :=
      [("https://idp.example.com", [("client1", "pol-42"), ("client2", "pol-43")])],
    OrgID := "org1",
    SegregateByClient := false,
    EnableContextVars := false,
    BaseIdentityProvidedBy := .OIDCUser,
    sessionStore := [],
    policyEngine := fun p _ =>
      if p = "pol-42" then some ⟨"tmpl42", [], ""⟩
      else if p = "pol-43" then some ⟨"tmpl43", [], ""⟩
      else none,
    sessionLifetime := 0,
    updateSucceeds := true }

/-- A concrete verified token: subject user-9, registered issuer, a
single string audience. -/
def testTok : UserToken :=
  ⟨"user-9", [("iss", .vstr "https://idp.example.com"), ("aud", .vstr "client1")]⟩

/-- A concrete provider configured before the one with the bad client. -/
def cfgA : OIDProviderConfig := ⟨"issA", [("Y2xpZW50MQ==", "pA")]⟩

/-- A concrete provider whose middle client has an undecodable base64
transport form ("!!!!"), surrounded by two well-formed clients. -/
def cfgBad : OIDProviderConfig :=
  ⟨"iss1", [("Y2xpZW50MQ==", "p0"), ("!!!!", "p1"), ("Y2xpZW50Mg==", "p2")]⟩

/-- A concrete provider configured after the one with the bad client. -/
def cfgB : OIDProviderConfig := ⟨"issB", [("Y2xpZW50Mw==", "pB")]⟩

/-! ## Association-list lemmas -/

theorem assocGet_assocSet_self {κ α : Type} [DecidableEq κ]
    (m : List (κ × α)) (k : κ) (v : α) :
    assocGet (assocSet m k v) k = some v := by
  induction m with
  | nil => simp [assocSet, assocGet]
  | cons p rest ih =>
    obtain ⟨k', v'⟩ := p
    by_cases h : k = k' <;> simp [assocSet, assocGet, h, ih]

theorem assocGet_assocSet_ne {κ α : Type} [DecidableEq κ]
    (m : List (κ × α)) {k k' : κ} (v : α) (h : k' ≠ k) :
    assocGet (assocSet m k v) k' = assocGet m k' := by
  induction m with
  | nil => simp [assocSet, assocGet, h]
  | cons p rest ih =>
    obtain ⟨k₀, v₀⟩ := p
    by_cases hk : k = k₀
    · subst hk
      simp [assocSet, assocGet, h]
    · simp [assocSet, assocGet, hk]
      by_cases hk' : k' = k₀ <;> simp [hk', ih]

/-! ## String-key disjointness lemmas -/

theorem claimKey_inj {a b : String} (h : "jwt_claims_" ++ a = "jwt_claims_" ++ b) :
    a = b := by
  have h2 : ("jwt_claims_" ++ a).data = ("jwt_claims_" ++ b).data := by rw [h]
  have h3 : "jwt_claims_".data ++ a.data = "jwt_claims_".data ++ b.data := h2
  have h4 : a.data = b.data := by
    simpa using h3
  cases a; cases b; exact congrArg String.mk h4

theorem token_ne_claimKey (n : String) : ("token" : String) ≠ "jwt_claims_" ++ n := by
  intro h
  have h2 : ("token" : String).data.head? = ("jwt_claims_" ++ n).data.head? := by rw [h]
  have h3 : (some 't' : Option Char) = some 'j' := h2
  exact absurd h3 (by decide)

/-! ## Lemmas about claim flattening -/

theorem flattenClaims_other (claims : List (String × GoVal))
    (m : List (String × GoVal)) (k : String)
    (h : ∀ p ∈ claims, k ≠ "jwt_claims_" ++ p.1) :
    assocGet (flattenClaims claims m) k = assocGet m k := by
  induction claims generalizing m with
  | nil => rfl
  | cons p rest ih =>
    have step : flattenClaims (p :: rest) m
        = flattenClaims rest (assocSet m ("jwt_claims_" ++ p.1) p.2) := rfl
    rw [step, ih _ (fun q hq => h q (List.mem_cons_of_mem _ hq)),
      assocGet_assocSet_ne _ _ (h p (List.mem_cons_self _ _))]

theorem flattenClaims_claim (claims : List (String × GoVal))
    (m : List (String × GoVal)) (n : String) (v : GoVal)
    (hnd : (claims.map Prod.fst).Nodup)
    (hv : assocGet claims n = some v) :
    assocGet (flattenClaims claims m) ("jwt_claims_" ++ n) = some v := by
  induction claims generalizing m with
  | nil => cases hv
  | cons p rest ih =>
    obtain ⟨pn, pv⟩ := p
    have step : flattenClaims ((pn, pv) :: rest) m
        = flattenClaims rest (assocSet m ("jwt_claims_" ++ pn) pv) := rfl
    rw [step]
    have hnd' : pn ∉ rest.map Prod.fst ∧ (rest.map Prod.fst).Nodup := by
      rw [List.map_cons, List.nodup_cons] at hnd
      exact hnd
    by_cases hn : n = pn
    · subst hn
      have hvv : pv = v := by
        simpa [assocGet] using hv
      subst hvv
      have hother : ∀ q ∈ rest, "jwt_claims_" ++ n ≠ "jwt_claims_" ++ q.1 := by
        intro q hq hkey
        exact hnd'.1 (by
          rw [claimKey_inj hkey]
          exact List.mem_map_of_mem Prod.fst hq)
      rw [flattenClaims_other rest _ _ hother]
      exact assocGet_assocSet_self _ _ _
    · have hv' : assocGet rest n = some v := by
        simpa [assocGet, hn] using hv
      exact ih _ hnd'.2 hv'

/-! ## Shape lemmas for the embedded middleware -/

theorem finalize_trace_shape (env : Env) (r : Ctx) (tok : UserToken) (sid : String)
    (ss : SessionState) (t : Trace) :
    ∃ st c, finalize env r tok sid ss t
      = (st, { t with sessionUsed := some ss, ctx := c }) := by
  unfold finalize
  rcases h : setContextVars env (publishIdentity env r sid ss) tok with _ | c <;>
    exact ⟨_, _, rfl⟩

/-- Under a present string issuer registered in the policy map and a
resolvable audience, `ProcessRequest` reduces to `materialize` at the
resolved client and policy. -/
theorem pr_resolve (env : Env) (r : Ctx) (tok : UserToken) (issStr : String)
    (clientSet : List (String × String)) (clientID policyID : String)
    (h1 : assocGet tok.Claims "iss" = some (.vstr issStr))
    (h2 : assocGet env.provider_client_policymap issStr = some clientSet)
    (h3 : resolveAudience clientSet (mapGet2 tok.Claims "aud").1
            = some (clientID, policyID)) :
    ProcessRequest env r (some tok) = materialize env r tok clientID policyID := by
  have hiss : mapGet2 tok.Claims "iss" = (.vstr issStr, true) := by
    simp [mapGet2, h1]
  simp only [ProcessRequest]
  rw [hiss]
  simp [assertString, h2, h3]

/-- With a non-empty policy and a session-store hit, `materialize`
finalizes with the stored session, after exactly one store lookup. -/
theorem mat_store_hit (env : Env) (r : Ctx) (tok : UserToken)
    (clientID policyID : String) (ss : SessionState)
    (hp : policyID ≠ "")
    (hs : assocGet env.sessionStore (sessionIDFor env clientID tok.UserID) = some ss) :
    materialize env r tok clientID policyID
      = finalize env r tok (sessionIDFor env clientID tok.UserID) ss
          { emptyTrace r with
              sessionLookups := [sessionIDFor env clientID tok.UserID] } := by
  unfold materialize
  rw [if_neg hp]
  simp only [hs]

/-- With a non-empty policy, a session-store miss, and a failing policy
engine, `materialize` fails with the no-matching-policy error, reporting
the computed session identifier. -/
theorem mat_engine_fail (env : Env) (r : Ctx) (tok : UserToken)
    (clientID policyID : String)
    (hp : policyID ≠ "")
    (hs : assocGet env.sessionStore (sessionIDFor env clientID tok.UserID) = none)
    (he : env.policyEngine policyID env.OrgID = none) :
    materialize env r tok clientID policyID
      = (.response (some "Key not authorized: no matching policy") 403,
         { emptyTrace r with
             sessionLookups := [sessionIDFor env clientID tok.UserID],
             policyEngineCalls := [(policyID, env.OrgID)],
             loginFailures := [sessionIDFor env clientID tok.UserID],
             healthKeyFailures := 1 }) := by
  unfold materialize
  rw [if_neg hp]
  simp only [hs, he]
  rfl

/-- With a non-empty policy, a session-store miss, and a successful
policy engine, `materialize` upserts the freshly templated session
(with metadata and alias attached) and finalizes with it. -/
theorem mat_engine_ok (env : Env) (r : Ctx) (tok : UserToken)
    (clientID policyID : String) (ss0 : SessionState)
    (hp : policyID ≠ "")
    (hs : assocGet env.sessionStore (sessionIDFor env clientID tok.UserID) = none)
    (he : env.policyEngine policyID env.OrgID = some ss0) :
    materialize env r tok clientID policyID
      = finalize env r tok (sessionIDFor env clientID tok.UserID)
          { ss0 with
              MetaData := [("TykJWTSessionID", sessionIDFor env clientID tok.UserID),
                           ("ClientID", clientID)],
              Alias := clientID ++ ":" ++ tok.UserID }
          { emptyTrace r with
              sessionLookups := [sessionIDFor env clientID tok.UserID],
              policyEngineCalls := [(policyID, env.OrgID)],
              upserts := [(sessionIDFor env clientID tok.UserID,
                           { ss0 with
                               MetaData := [("TykJWTSessionID",
                                             sessionIDFor env clientID tok.UserID),
                                            ("ClientID", clientID)],
                               Alias := clientID ++ ":" ++ tok.UserID },
                           env.sessionLifetime)] } := by
  unfold materialize
  rw [if_neg hp]
  simp only [hs, he]

/-- Whatever the state of the session store and policy engine, a
resolution with a non-empty policy performs exactly one session-store
lookup, at the derived session identifier. -/
theorem mat_lookups (env : Env) (r : Ctx) (tok : UserToken)
    (clientID policyID : String) (hp : policyID ≠ "") :
    (materialize env r tok clientID policyID).2.sessionLookups
      = [sessionIDFor env clientID tok.UserID] := by
  rcases hs : assocGet env.sessionStore (sessionIDFor env clientID tok.UserID) with _ | ss
  · rcases he : env.policyEngine policyID env.OrgID with _ | ss0
    · rw [mat_engine_fail env r tok clientID policyID hp hs he]
    · rw [mat_engine_ok env r tok clientID policyID ss0 hp hs he]
      obtain ⟨st, c, hf⟩ := finalize_trace_shape env r tok _ _ _
      rw [hf]
  · rw [mat_store_hit env r tok clientID policyID ss hp hs]
    obtain ⟨st, c, hf⟩ := finalize_trace_shape env r tok _ _ _
    rw [hf]

/-- The audience loop takes the first array entry present in the client
map: entries before it that are absent are skipped, entries after it are
never inspected. -/
theorem audienceLoop_first_match (clientSet : List (String × String))
    (pre : List String) (s : String) (post : List String) (p : String)
    (hpre : ∀ x ∈ pre, assocGet clientSet x = none)
    (hs : assocGet clientSet s = some p) :
    audienceLoop clientSet ((pre ++ s :: post).map some) = some (s, p) := by
  induction pre with
  | nil => simp [audienceLoop, hs]
  | cons a as ih =>
    have ha : assocGet clientSet a = none := hpre a (List.mem_cons_self _ _)
    simp only [List.cons_append, List.map_cons, audienceLoop, ha]
    exact ih (fun x hx => hpre x (List.mem_cons_of_mem _ hx))

/-- A request that reaches materialization performs exactly one
session-store lookup, at the derived session identifier. -/
theorem pr_lookups (env : Env) (r : Ctx) (tok : UserToken) (issStr : String)
    (clientSet : List (String × String)) (clientID policyID : String)
    (h1 : assocGet tok.Claims "iss" = some (.vstr issStr))
    (h2 : assocGet env.provider_client_policymap issStr = some clientSet)
    (h3 : resolveAudience clientSet (mapGet2 tok.Claims "aud").1
            = some (clientID, policyID))
    (h4 : policyID ≠ "") :
    (ProcessRequest env r (some tok)).2.sessionLookups
      = [sessionIDFor env clientID tok.UserID] := by
  rw [pr_resolve env r tok issStr clientSet clientID policyID h1 h2 h3]
  exact mat_lookups env r tok clientID policyID h4

/-- Full evaluation of `finalize` when this middleware is the base
identity provider, context-variable flattening is on, and the request
context carries a context-data object. -/
theorem finalize_eval (env : Env) (r : Ctx) (tok : UserToken) (sid : String)
    (ss : SessionState) (t : Trace) (m0 : List (String × GoVal))
    (hev : env.EnableContextVars = true)
    (hbase : env.BaseIdentityProvidedBy = .OIDCUser
             ∨ env.BaseIdentityProvidedBy = .UnsetAuth)
    (hctx : assocGet r CtxKey.ContextData = some (.dataMap m0)) :
    finalize env r tok sid ss t
      = (.response none 200,
         { t with
             sessionUsed := some ss,
             ctx := assocSet (assocSet (assocSet r CtxKey.SessionData (.session ss))
                      CtxKey.AuthHeaderValue (.str sid)) CtxKey.ContextData
                     (.dataMap (assocSet (flattenClaims tok.Claims m0) "token"
                        (.vstr sid))) }) := by
  have hpub : publishIdentity env r sid ss
      = assocSet (assocSet r CtxKey.SessionData (.session ss))
          CtxKey.AuthHeaderValue (.str sid) := by
    rcases hbase with hb | hb <;> unfold publishIdentity <;> rw [hb]
  have hget : assocGet (publishIdentity env r sid ss) CtxKey.ContextData
      = some (.dataMap m0) := by
    rw [hpub, assocGet_assocSet_ne _ _ (by decide),
      assocGet_assocSet_ne _ _ (by decide), hctx]
  have hahv : assocGet (publishIdentity env r sid ss) CtxKey.AuthHeaderValue
      = some (.str sid) := by
    rw [hpub, assocGet_assocSet_self]
  have hscv : setContextVars env (publishIdentity env r sid ss) tok
      = some (assocSet (publishIdentity env r sid ss) CtxKey.ContextData
               (.dataMap (assocSet (flattenClaims tok.Claims m0) "token"
                  (.vstr sid)))) := by
    unfold setContextVars
    rw [hev]
    simp only [if_true]
    rw [hget, hahv]
  unfold finalize
  rw [hscv, hpub]

/-! ## Lemmas about provider configuration -/

/-- The per-provider client fold of `getProviders` computes the
per-client insertions and appends the decoded client array. -/
theorem clientsFold_eq (iss : String) (cl : List (String × String))
    (m : List (String × List (String × String))) (arr : List String) :
    cl.foldl (fun (st : List (String × List (String × String)) × List String) kv =>
        let clientID := stringOfBytes (base64DecodeGo kv.1).1
        (insertClient st.1 iss clientID kv.2, st.2 ++ [clientID])) (m, arr)
      = (cl.foldl (fun acc kv => insertClient acc iss (decodedClient kv.1) kv.2) m,
         arr ++ cl.map (fun kv => decodedClient kv.1)) := by
  induction cl generalizing m arr with
  | nil => simp
  | cons kv rest ih =>
    simp only [List.foldl_cons, List.map_cons, ih, decodedClient]
    simp

/-- Characterization of `getProviders` with a general accumulator. -/
theorem getProviders_aux (ok : String → List String → Bool)
    (cfgs : List OIDProviderConfig) (acc : ProvidersResult) :
    cfgs.foldl
      (fun acc provider =>
        let processed := provider.ClientIDs.foldl
          (fun (st : List (String × List (String × String)) × List String) kv =>
            let clientID := stringOfBytes (base64DecodeGo kv.1).1
            (insertClient st.1 provider.Issuer clientID kv.2, st.2 ++ [clientID]))
          (acc.policymap, [])
        if ok provider.Issuer processed.2 then
          { providers := acc.providers ++ [(provider.Issuer, processed.2)],
            policymap := processed.1 }
        else
          { providers := acc.providers, policymap := processed.1 })
      acc
      = { providers := acc.providers ++ registeredProviders ok cfgs,
          policymap := cfgs.foldl insertProviderClients acc.policymap } := by
  induction cfgs generalizing acc with
  | nil => simp [registeredProviders]
  | cons p rest ih =>
    rw [List.foldl_cons, ih]
    simp only [clientsFold_eq, registeredProviders]
    by_cases hok : ok p.Issuer (p.ClientIDs.map (fun kv => decodedClient kv.1))
    · simp [hok, clientArrayOf, insertProviderClients, List.nil_append]
    · simp [hok, clientArrayOf, insertProviderClients, List.nil_append]

/-- Full characterization of `getProviders`: the registered providers
are exactly those accepted by the validation library on their own
issuer/client array, and the shared policy map is the fold of the
uniform per-client insertions over every provider in order — each
client contributing its decoded identifier regardless of whether its
decode succeeded. -/
theorem getProviders_characterization (ok : String → List String → Bool)
    (cfgs : List OIDProviderConfig)
    (m0 : List (String × List (String × String))) :
    getProviders ok cfgs m0
      = { providers := registeredProviders ok cfgs,
          policymap := cfgs.foldl insertProviderClients m0 } := by
  unfold getProviders
  rw [getProviders_aux ok cfgs { providers := [], policymap := m0 }]
  simp

/-- What an `insertClient` does to each issuer entry of the map: the
targeted issuer's client set is created or extended, all others are
untouched. -/
theorem insertClient_lookup (m : List (String × List (String × String)))
    (iss k v i : String) :
    assocGet (insertClient m iss k v) i
      = if i = iss then
          some (match assocGet m iss with
                | none => [(k, v)]
                | some cs => assocSet cs k v)
        else assocGet m i := by
  unfold insertClient
  by_cases hi : i = iss
  · subst hi
    rcases h : assocGet m i with _ | cs <;>
      simp [h, assocGet_assocSet_self]
  · rcases h : assocGet m iss with _ | cs <;>
      simp [h, hi, assocGet_assocSet_ne _ _ hi]

/-- After an `insertClient`, the inserted client is retrievable from
its issuer's client set. -/
theorem insertClient_self (m : List (String × List (String × String)))
    (iss key pid : String) :
    ∃ cs, assocGet (insertClient m iss key pid) iss = some cs
      ∧ assocGet cs key = some pid := by
  rcases h : assocGet m iss with _ | cs0
  · refine ⟨[(key, pid)], ?_, ?_⟩
    · rw [insertClient_lookup, h]
      simp
    · simp [assocGet]
  · refine ⟨assocSet cs0 key pid, ?_, ?_⟩
    · rw [insertClient_lookup, h]
      simp
    · exact assocGet_assocSet_self _ _ _

/-- A later `insertClient` for a different issuer or a different
decoded client identifier preserves retrievability of an earlier
inserted client. -/
theorem insertClient_preserves (m : List (String × List (String × String)))
    (iss key pid iss' k' v' : String)
    (hP : ∃ cs, assocGet m iss = some cs ∧ assocGet cs key = some pid)
    (hne : iss' ≠ iss ∨ k' ≠ key) :
    ∃ cs, assocGet (insertClient m iss' k' v') iss = some cs
      ∧ assocGet cs key = some pid := by
  obtain ⟨cs, h1, h2⟩ := hP
  rcases hne with hi | hk
  · have hii : iss ≠ iss' := Ne.symm hi
    refine ⟨cs, ?_, h2⟩
    rw [insertClient_lookup]
    simp [hii, h1]
  · by_cases hi : iss' = iss
    · subst hi
      refine ⟨assocSet cs k' v', ?_, ?_⟩
      · rw [insertClient_lookup, h1]
        simp
      · have hkk : key ≠ k' := Ne.symm hk
        rw [assocGet_assocSet_ne _ _ hkk]
        exact h2
    · have hii : iss ≠ iss' := Ne.symm hi
      refine ⟨cs, ?_, h2⟩
      rw [insertClient_lookup]
      simp [hii, h1]

/-- A fold of client insertions for one provider preserves
retrievability of an earlier inserted client, as long as no inserted
client collides with it (same issuer and same decoded identifier). -/
theorem clientsFold_preserves (iss key pid iss' : String)
    (cl : List (String × String)) (m : List (String × List (String × String)))
    (hP : ∃ cs, assocGet m iss = some cs ∧ assocGet cs key = some pid)
    (hkeys : iss' = iss → ∀ kv ∈ cl, decodedClient kv.1 ≠ key) :
    ∃ cs, assocGet
        (cl.foldl (fun acc kv => insertClient acc iss' (decodedClient kv.1) kv.2) m)
        iss = some cs
      ∧ assocGet cs key = some pid := by
  induction cl generalizing m with
  | nil => exact hP
  | cons kv rest ih =>
    simp only [List.foldl_cons]
    refine ih _ ?_ (fun hi q hq => hkeys hi q (List.mem_cons_of_mem _ hq))
    refine insertClient_preserves m iss key pid iss' (decodedClient kv.1) kv.2 hP ?_
    by_cases hi : iss' = iss
    · exact Or.inr (hkeys hi kv (List.mem_cons_self _ _))
    · exact Or.inl hi

/-- A fold of whole-provider insertions preserves retrievability of an
earlier inserted client, as long as no client of a same-issuer provider
collides with it. -/
theorem providersFold_preserves (iss key pid : String)
    (ps : List OIDProviderConfig) (m : List (String × List (String × String)))
    (hP : ∃ cs, assocGet m iss = some cs ∧ assocGet cs key = some pid)
    (hps : ∀ q ∈ ps, q.Issuer = iss → ∀ kv ∈ q.ClientIDs, decodedClient kv.1 ≠ key) :
    ∃ cs, assocGet (ps.foldl insertProviderClients m) iss = some cs
      ∧ assocGet cs key = some pid := by
  induction ps generalizing m with
  | nil => exact hP
  | cons q rest ih =>
    simp only [List.foldl_cons]
    refine ih _ ?_ (fun q' hq' => hps q' (List.mem_cons_of_mem _ hq'))
    exact clientsFold_preserves iss key pid q.Issuer q.ClientIDs m hP
      (hps q (List.mem_cons_self _ _))

/-- Inserting one provider's clients leaves every other issuer's map
entry untouched. -/
theorem insertProviderClients_other (m : List (String × List (String × String)))
    (p : OIDProviderConfig) (i : String) (h : i ≠ p.Issuer) :
    assocGet (insertProviderClients m p) i = assocGet m i := by
  unfold insertProviderClients
  induction p.ClientIDs generalizing m with
  | nil => rfl
  | cons kv rest ih =>
    simp only [List.foldl_cons]
    rw [ih]
    rw [insertClient_lookup]
    simp [h]

/-- The map entry of a fixed issuer after one provider's insertions
depends only on that entry beforehand. -/
theorem clientsFold_lookup_congr (iss' : String) (cl : List (String × String))
    (i : String) (m m' : List (String × List (String × String)))
    (h : assocGet m i = assocGet m' i) :
    assocGet (cl.foldl (fun acc kv => insertClient acc iss' (decodedClient kv.1) kv.2) m) i
      = assocGet (cl.foldl (fun acc kv => insertClient acc iss' (decodedClient kv.1) kv.2) m') i := by
  induction cl generalizing m m' with
  | nil => exact h
  | cons kv rest ih =>
    simp only [List.foldl_cons]
    refine ih _ _ ?_
    rw [insertClient_lookup, insertClient_lookup]
    by_cases hi : i = iss'
    · subst hi
      rw [h]
    · simp [hi, h]

/-- The map entry of a fixed issuer after a fold of whole-provider
insertions depends only on that entry beforehand. -/
theorem providersFold_lookup_congr (ps : List OIDProviderConfig) (i : String)
    (m m' : List (String × List (String × String)))
    (h : assocGet m i = assocGet m' i) :
    assocGet (ps.foldl insertProviderClients m) i
      = assocGet (ps.foldl insertProviderClients m') i := by
  induction ps generalizing m m' with
  | nil => exact h
  | cons q rest ih =>
    simp only [List.foldl_cons]
    exact ih _ _ (clientsFold_lookup_congr q.Issuer q.ClientIDs i m m' h)

/-- `registeredProviders` distributes over configuration
concatenation: each provider's registration depends on its own entry
only. -/
theorem registeredProviders_append (ok : String → List String → Bool)
    (l1 l2 : List OIDProviderConfig) :
    registeredProviders ok (l1 ++ l2)
      = registeredProviders ok l1 ++ registeredProviders ok l2 := by
  induction l1 with
  | nil => simp [registeredProviders]
  | cons p rest ih =>
    simp only [List.cons_append, registeredProviders, ih]
    by_cases hok : ok p.Issuer (clientArrayOf p) <;> simp [hok, ih]

/-! ## Claim theorems -/

/-- C1: for every verified token whose `aud` claim is an array of
strings and whose `iss` claim is a registered issuer, claim resolution
scans the array in order and selects the first entry present in that
issuer's client-to-policy map: that entry becomes the effective client
identifier and its mapped value the policy identifier handed to
materialization, and entries after the first match are never considered
(the `post` part of the array is arbitrary and unconstrained). -/
theorem c1_aud_array_first_match (env : Env) (r : Ctx) (tok : UserToken)
    (issStr : String) (clientSet : List (String × String))
    (pre : List String) (s : String) (post : List String) (p : String)
    (h1 : assocGet tok.Claims "iss" = some (.vstr issStr))
    (h2 : assocGet env.provider_client_policymap issStr = some clientSet)
    (haud : assocGet tok.Claims "aud" = some (.varr ((pre ++ s :: post).map some)))
    (hpre : ∀ x ∈ pre, assocGet clientSet x = none)
    (hs : assocGet clientSet s = some p) :
    resolveAudience clientSet (.varr ((pre ++ s :: post).map some)) = some (s, p) ∧
    ProcessRequest env r (some tok) = materialize env r tok s p := by
  have hres : resolveAudience clientSet (.varr ((pre ++ s :: post).map some))
      = some (s, p) := by
    unfold resolveAudience
    exact audienceLoop_first_match clientSet pre s post p hpre hs
  have h3 : resolveAudience clientSet (mapGet2 tok.Claims "aud").1 = some (s, p) := by
    rw [show (mapGet2 tok.Claims "aud").1 = .varr ((pre ++ s :: post).map some) from by
      simp [mapGet2, haud]]
    exact hres
  exact ⟨hres, pr_resolve env r tok issStr clientSet s p h1 h2 h3⟩

theorem c1_witness :
    (∀ x ∈ ["nomatch"],
       assocGet [("client1", "pol-42"), ("client2", "pol-43")] x = none) ∧
    assocGet [("client1", "pol-42"), ("client2", "pol-43")] "client1" = some "pol-42" ∧
    (resolveAudience [("client1", "pol-42"), ("client2", "pol-43")]
        (.varr ((["nomatch"] ++ "client1" :: ["client2"]).map some))
        = some ("client1", "pol-42") ∧
     ProcessRequest testEnv []
        (some ⟨"user-9",
               [("iss", .vstr "https://idp.example.com"),
                ("aud", .varr [some "nomatch", some "client1", some "client2"])]⟩)
        = materialize testEnv []
            ⟨"user-9",
             [("iss", .vstr "https://idp.example.com"),
              ("aud", .varr [some "nomatch", some "client1", some "client2"])]⟩
            "client1" "pol-42") :=
  ⟨by decide, by decide,
   c1_aud_array_first_match testEnv []
     ⟨"user-9",
      [("iss", .vstr "https://idp.example.com"),
       ("aud", .varr [some "nomatch", some "client1", some "client2"])]⟩
     "https://idp.example.com" [("client1", "pol-42"), ("client2", "pol-43")]
     ["nomatch"] "client1" ["client2"] "pol-42"
     (by decide) (by decide) (by decide) (by decide) (by decide)⟩

/-- C2: a request that reaches session materialization derives the
session identifier orgID ++ md5hex(subject) without client segregation,
and orgID ++ md5hex(effectiveClientID) ++ md5hex(subject) with it (the
single session-store lookup is performed at exactly that identifier);
and a second request with the same subject (and, under segregation, the
same effective client) against the same organisation and segregation
configuration derives the same identifier. -/
theorem c2_session_identifier
    (env env' : Env) (r r' : Ctx) (tok tok' : UserToken)
    (issStr issStr' : String) (clientSet clientSet' : List (String × String))
    (clientID clientID' policyID policyID' : String)
    (h1 : assocGet tok.Claims "iss" = some (.vstr issStr))
    (h2 : assocGet env.provider_client_policymap issStr = some clientSet)
    (h3 : resolveAudience clientSet (mapGet2 tok.Claims "aud").1
            = some (clientID, policyID))
    (h4 : policyID ≠ "")
    (h1' : assocGet tok'.Claims "iss" = some (.vstr issStr'))
    (h2' : assocGet env'.provider_client_policymap issStr' = some clientSet')
    (h3' : resolveAudience clientSet' (mapGet2 tok'.Claims "aud").1
            = some (clientID', policyID'))
    (h4' : policyID' ≠ "")
    (horg : env'.OrgID = env.OrgID)
    (hseg : env'.SegregateByClient = env.SegregateByClient)
    (huser : tok'.UserID = tok.UserID)
    (hclient : env.SegregateByClient = true → clientID' = clientID) :
    (ProcessRequest env r (some tok)).2.sessionLookups
      = [if env.SegregateByClient
          then env.OrgID ++ md5hex clientID ++ md5hex tok.UserID
          else env.OrgID ++ md5hex tok.UserID] ∧
    (ProcessRequest env' r' (some tok')).2.sessionLookups
      = (ProcessRequest env r (some tok)).2.sessionLookups := by
  have e1 := pr_lookups env r tok issStr clientSet clientID policyID h1 h2 h3 h4
  have e2 := pr_lookups env' r' tok' issStr' clientSet' clientID' policyID' h1' h2' h3' h4'
  have hid : sessionIDFor env' clientID' tok'.UserID
      = sessionIDFor env clientID tok.UserID := by
    unfold sessionIDFor
    rw [horg, hseg, huser]
    by_cases hb : env.SegregateByClient
    · rw [hclient hb]
    · simp [hb]
  refine ⟨?_, ?_⟩
  · rw [e1]
    unfold sessionIDFor
    rfl
  · rw [e1, e2, hid]

theorem c2_witness :
    ("pol-42" : String) ≠ "" ∧
    testEnv.SegregateByClient = false ∧
    ((ProcessRequest testEnv [] (some testTok)).2.sessionLookups
       = [if testEnv.SegregateByClient
           then testEnv.OrgID ++ md5hex "client1" ++ md5hex testTok.UserID
           else testEnv.OrgID ++ md5hex testTok.UserID] ∧
     (ProcessRequest testEnv []
        (some ⟨"user-9",
               [("iss", .vstr "https://idp.example.com"), ("aud", .vstr "client1"),
                ("extra", .vnum 1)]⟩)).2.sessionLookups
       = (ProcessRequest testEnv [] (some testTok)).2.sessionLookups) :=
  ⟨by decide, by decide,
   c2_session_identifier testEnv testEnv [] [] testTok
     ⟨"user-9",
      [("iss", .vstr "https://idp.example.com"), ("aud", .vstr "client1"),
       ("extra", .vnum 1)]⟩
     "https://idp.example.com" "https://idp.example.com"
     [("client1", "pol-42"), ("client2", "pol-43")]
     [("client1", "pol-42"), ("client2", "pol-43")]
     "client1" "client1" "pol-42" "pol-42"
     (by decide) (by decide) (by decide) (by decide)
     (by decide) (by decide) (by decide) (by decide)
     (by decide) (by decide) (by decide) (by decide)⟩

/-- C3: when the derived session identifier is already present in the
session manager, the stored session state is reused unchanged: the
policy engine is never called, nothing is upserted, and the session
placed on the request is exactly the stored one. -/
theorem c3_idempotent_materialization (env : Env) (r : Ctx) (tok : UserToken)
    (issStr : String) (clientSet : List (String × String))
    (clientID policyID : String) (ss : SessionState)
    (h1 : assocGet tok.Claims "iss" = some (.vstr issStr))
    (h2 : assocGet env.provider_client_policymap issStr = some clientSet)
    (h3 : resolveAudience clientSet (mapGet2 tok.Claims "aud").1
            = some (clientID, policyID))
    (h4 : policyID ≠ "")
    (hs : assocGet env.sessionStore (sessionIDFor env clientID tok.UserID) = some ss) :
    (ProcessRequest env r (some tok)).2.policyEngineCalls = [] ∧
    (ProcessRequest env r (some tok)).2.upserts = [] ∧
    (ProcessRequest env r (some tok)).2.sessionUsed = some ss := by
  rw [pr_resolve env r tok issStr clientSet clientID policyID h1 h2 h3,
    mat_store_hit env r tok clientID policyID ss h4 hs]
  obtain ⟨st, c, hf⟩ := finalize_trace_shape env r tok _ ss _
  rw [hf]
  exact ⟨rfl, rfl, rfl⟩

theorem c3_witness :
    assocGet
        [("org1" ++ md5hex "user-9", (⟨"stored", [], "alias0"⟩ : SessionState))]
        (sessionIDFor { testEnv with
          sessionStore := [("org1" ++ md5hex "user-9", ⟨"stored", [], "alias0"⟩)] }
          "client1" "user-9")
      = some ⟨"stored", [], "alias0"⟩ ∧
    ((ProcessRequest { testEnv with
          sessionStore := [("org1" ++ md5hex "user-9", ⟨"stored", [], "alias0"⟩)] }
        [] (some testTok)).2.policyEngineCalls = [] ∧
     (ProcessRequest { testEnv with
          sessionStore := [("org1" ++ md5hex "user-9", ⟨"stored", [], "alias0"⟩)] }
        [] (some testTok)).2.upserts = [] ∧
     (ProcessRequest { testEnv with
          sessionStore := [("org1" ++ md5hex "user-9", ⟨"stored", [], "alias0"⟩)] }
        [] (some testTok)).2.sessionUsed = some ⟨"stored", [], "alias0"⟩) :=
  ⟨by decide,
   c3_idempotent_materialization
     { testEnv with
         sessionStore := [("org1" ++ md5hex "user-9", ⟨"stored", [], "alias0"⟩)] }
     [] testTok "https://idp.example.com"
     [("client1", "pol-42"), ("client2", "pol-43")] "client1" "pol-42"
     ⟨"stored", [], "alias0"⟩
     (by decide) (by decide) (by decide) (by decide) (by decide)⟩

/-- C4 counterexample: the claim that a client whose base64 transport
form fails to decode is excluded from the issuer's client-to-policy map
and from the provider registration request is false: for the
undecodable client identifier "!!!!" the decode error is discarded, the
partially-decoded (empty) string is inserted into the map bound to the
client's policy, and it is included in the registration request. -/
theorem c4_counterexample :
    (base64DecodeGo "!!!!").2 = false ∧
    (getProviders (fun _ _ => true) [⟨"iss1", [("!!!!", "p1")]⟩] []).policymap
      = [("iss1", [("", "p1")])] ∧
    (getProviders (fun _ _ => true) [⟨"iss1", [("!!!!", "p1")]⟩] []).providers
      = [("iss1", [""])] := by decide

/-- C4 amended: in an arbitrary configuration (any providers before and
after, any clients before and after within the provider), a configured
client identifier whose base64 transport form fails to decode is not
excluded: the decode error is ignored and the partially-decoded string
(empty when nothing decodes) is included at the client's position in the
provider's registration request and inserted into the issuer's
client-to-policy map bound to that client's policy (retrievable from the
final map when no later-configured client of the same issuer decodes to
the same identifier — Go map writes are last-write-wins); and every
other client and provider is configured normally: the registered
providers are exactly those accepted on their own issuer/client array,
the policy map is the uniform per-client insertion fold over the whole
configuration, map entries of other issuers are exactly as if the bad
client's provider were absent, and other providers' registrations do
not depend on it. -/
theorem c4_undecodable_client_still_configured
    (ok : String → List String → Bool)
    (m0 : List (String × List (String × String)))
    (pre post : List OIDProviderConfig) (cfg : OIDProviderConfig)
    (clPre clPost : List (String × String)) (cid pid : String)
    (hcfg : cfg.ClientIDs = clPre ++ (cid, pid) :: clPost)
    (hbad : (base64DecodeGo cid).2 = false)
    (hpost1 : ∀ kv ∈ clPost, decodedClient kv.1 ≠ decodedClient cid)
    (hpost2 : ∀ q ∈ post, q.Issuer = cfg.Issuer →
                ∀ kv ∈ q.ClientIDs, decodedClient kv.1 ≠ decodedClient cid) :
    (getProviders ok (pre ++ cfg :: post) m0).providers
        = registeredProviders ok (pre ++ cfg :: post) ∧
    (getProviders ok (pre ++ cfg :: post) m0).policymap
        = (pre ++ cfg :: post).foldl insertProviderClients m0 ∧
    clientArrayOf cfg
        = clPre.map (fun kv => decodedClient kv.1)
          ++ decodedClient cid :: clPost.map (fun kv => decodedClient kv.1) ∧
    (∃ cs, assocGet (getProviders ok (pre ++ cfg :: post) m0).policymap cfg.Issuer
            = some cs
       ∧ assocGet cs (decodedClient cid) = some pid) ∧
    (∀ i, i ≠ cfg.Issuer →
       assocGet ((pre ++ cfg :: post).foldl insertProviderClients m0) i
         = assocGet ((pre ++ post).foldl insertProviderClients m0) i) ∧
    registeredProviders ok (pre ++ cfg :: post)
      = registeredProviders ok pre
        ++ (if ok cfg.Issuer (clientArrayOf cfg)
            then [(cfg.Issuer, clientArrayOf cfg)] else [])
        ++ registeredProviders ok post := by
  have hchar := getProviders_characterization ok (pre ++ cfg :: post) m0
  have hprov : (getProviders ok (pre ++ cfg :: post) m0).providers
      = registeredProviders ok (pre ++ cfg :: post) := by rw [hchar]
  have hmap : (getProviders ok (pre ++ cfg :: post) m0).policymap
      = (pre ++ cfg :: post).foldl insertProviderClients m0 := by rw [hchar]
  have harr : clientArrayOf cfg
      = clPre.map (fun kv => decodedClient kv.1)
        ++ decodedClient cid :: clPost.map (fun kv => decodedClient kv.1) := by
    rw [clientArrayOf, hcfg]
    simp
  refine ⟨hprov, hmap, harr, ?_, ?_, ?_⟩
  · rw [hmap, List.foldl_append, List.foldl_cons]
    refine providersFold_preserves cfg.Issuer (decodedClient cid) pid post _ ?_ hpost2
    show ∃ cs, assocGet (insertProviderClients
        (List.foldl insertProviderClients m0 pre) cfg) cfg.Issuer = some cs
      ∧ assocGet cs (decodedClient cid) = some pid
    unfold insertProviderClients
    rw [hcfg, List.foldl_append, List.foldl_cons]
    refine clientsFold_preserves cfg.Issuer (decodedClient cid) pid cfg.Issuer
      clPost _ ?_ (fun _ => hpost1)
    exact insertClient_self _ cfg.Issuer (decodedClient cid) pid
  · intro i hi
    rw [List.foldl_append, List.foldl_cons, List.foldl_append]
    exact providersFold_lookup_congr post i _ _
      (insertProviderClients_other _ cfg i hi)
  · rw [registeredProviders_append]
    by_cases hok : ok cfg.Issuer (clientArrayOf cfg) <;>
      simp [registeredProviders, hok]

theorem c4_witness :
    cfgBad.ClientIDs
        = [("Y2xpZW50MQ==", "p0")] ++ ("!!!!", "p1") :: [("Y2xpZW50Mg==", "p2")] ∧
    (base64DecodeGo "!!!!").2 = false ∧
    (∀ kv ∈ [("Y2xpZW50Mg==", "p2")], decodedClient kv.1 ≠ decodedClient "!!!!") ∧
    (∀ q ∈ [cfgB], q.Issuer = cfgBad.Issuer →
       ∀ kv ∈ q.ClientIDs, decodedClient kv.1 ≠ decodedClient "!!!!") ∧
    ((getProviders (fun _ _ => true) ([cfgA] ++ cfgBad :: [cfgB]) []).providers
        = registeredProviders (fun _ _ => true) ([cfgA] ++ cfgBad :: [cfgB]) ∧
     (getProviders (fun _ _ => true) ([cfgA] ++ cfgBad :: [cfgB]) []).policymap
        = ([cfgA] ++ cfgBad :: [cfgB]).foldl insertProviderClients [] ∧
     clientArrayOf cfgBad
        = [("Y2xpZW50MQ==", "p0")].map (fun kv => decodedClient kv.1)
          ++ decodedClient "!!!!"
             :: [("Y2xpZW50Mg==", "p2")].map (fun kv => decodedClient kv.1) ∧
     (∃ cs, assocGet (getProviders (fun _ _ => true)
             ([cfgA] ++ cfgBad :: [cfgB]) []).policymap cfgBad.Issuer = some cs
        ∧ assocGet cs (decodedClient "!!!!") = some "p1") ∧
     (∀ i, i ≠ cfgBad.Issuer →
        assocGet (([cfgA] ++ cfgBad :: [cfgB]).foldl insertProviderClients []) i
          = assocGet (([cfgA] ++ [cfgB]).foldl insertProviderClients []) i) ∧
     registeredProviders (fun _ _ => true) ([cfgA] ++ cfgBad :: [cfgB])
        = registeredProviders (fun _ _ => true) [cfgA]
          ++ (if (fun _ _ => true) cfgBad.Issuer (clientArrayOf cfgBad)
              then [(cfgBad.Issuer, clientArrayOf cfgBad)] else [])
          ++ registeredProviders (fun _ _ => true) [cfgB]) :=
  ⟨by decide, by decide, by decide, by decide,
   c4_undecodable_client_still_configured (fun _ _ => true) [] [cfgA] [cfgB] cfgBad
     [("Y2xpZW50MQ==", "p0")] [("Y2xpZW50Mg==", "p2")] "!!!!" "p1"
     (by decide) (by decide) (by decide) (by decide)⟩

/-- C5 counterexample: the claim that a persistence failure of the
freshly created session is surfaced to the caller is false: in a run
where the session manager's upsert fails (updateSucceeds = false) and a
fresh session is upserted, processRequest still returns the success
outcome (nil error, 200). -/
theorem c5_counterexample :
    ({ testEnv with updateSucceeds := false } : Env).updateSucceeds = false ∧
    (ProcessRequest { testEnv with updateSucceeds := false } []
        (some testTok)).2.upserts ≠ [] ∧
    (ProcessRequest { testEnv with updateSucceeds := false } []
        (some testTok)).1 = .response none 200 := by decide

/-- C5 amended: the outcome of persisting the freshly created session
is ignored: the result of processRequest is entirely independent of
whether the session manager's upsert succeeds, so a persistence failure
is never surfaced to the caller (the source discards the result of the
UpdateSession call at line 202). -/
theorem c5_persistence_outcome_ignored (env : Env) (r : Ctx)
    (auth : Option UserToken) (b : Bool) :
    ProcessRequest { env with updateSucceeds := b } r auth
      = ProcessRequest env r auth := rfl

/-- C6: when the derived session identifier is not in the session
manager and the policy engine cannot produce a template for the
resolved policy, processRequest fails with the no-matching-policy error
and status 403, reports exactly one login failure keyed by the computed
session identifier (not a placeholder), and persists no session. -/
theorem c6_policy_expansion_failure (env : Env) (r : Ctx) (tok : UserToken)
    (issStr : String) (clientSet : List (String × String))
    (clientID policyID : String)
    (h1 : assocGet tok.Claims "iss" = some (.vstr issStr))
    (h2 : assocGet env.provider_client_policymap issStr = some clientSet)
    (h3 : resolveAudience clientSet (mapGet2 tok.Claims "aud").1
            = some (clientID, policyID))
    (h4 : policyID ≠ "")
    (hs : assocGet env.sessionStore (sessionIDFor env clientID tok.UserID) = none)
    (he : env.policyEngine policyID env.OrgID = none) :
    (ProcessRequest env r (some tok)).1
        = .response (some "Key not authorized: no matching policy") 403 ∧
    (ProcessRequest env r (some tok)).2.loginFailures
        = [sessionIDFor env clientID tok.UserID] ∧
    (ProcessRequest env r (some tok)).2.upserts = [] := by
  rw [pr_resolve env r tok issStr clientSet clientID policyID h1 h2 h3,
    mat_engine_fail env r tok clientID policyID h4 hs he]
  exact ⟨rfl, rfl, rfl⟩

theorem c6_witness :
    ({ testEnv with policyEngine := fun _ _ => none } : Env).policyEngine
        "pol-42" "org1" = none ∧
    ((ProcessRequest { testEnv with policyEngine := fun _ _ => none } []
         (some testTok)).1
       = .response (some "Key not authorized: no matching policy") 403 ∧
     (ProcessRequest { testEnv with policyEngine := fun _ _ => none } []
         (some testTok)).2.loginFailures
       = [sessionIDFor { testEnv with policyEngine := fun _ _ => none }
            "client1" testTok.UserID] ∧
     (ProcessRequest { testEnv with policyEngine := fun _ _ => none } []
         (some testTok)).2.upserts = []) :=
  ⟨rfl,
   c6_policy_expansion_failure { testEnv with policyEngine := fun _ _ => none }
     [] testTok "https://idp.example.com"
     [("client1", "pol-42"), ("client2", "pol-43")] "client1" "pol-42"
     (by decide) (by decide) (by decide) (by decide) (by decide) rfl⟩

/-- C7: a verified token whose `iss` claim is a string absent from the
provider registry fails with status 403 and an error, reports a login
failure (with the placeholder identifier), and never consults the
session manager or the policy engine, and persists nothing. -/
theorem c7_unregistered_issuer (env : Env) (r : Ctx) (tok : UserToken)
    (issStr : String)
    (h1 : assocGet tok.Claims "iss" = some (.vstr issStr))
    (h2 : assocGet env.provider_client_policymap issStr = none) :
    (ProcessRequest env r (some tok)).1 = .response (some "Key not authorised") 403 ∧
    (ProcessRequest env r (some tok)).2.loginFailures = ["[NOT GENERATED]"] ∧
    (ProcessRequest env r (some tok)).2.sessionLookups = [] ∧
    (ProcessRequest env r (some tok)).2.policyEngineCalls = [] ∧
    (ProcessRequest env r (some tok)).2.upserts = [] := by
  have hiss : mapGet2 tok.Claims "iss" = (.vstr issStr, true) := by
    simp [mapGet2, h1]
  have hpr : ProcessRequest env r (some tok)
      = (.response (some "Key not authorised") 403,
         reportLoginFailure "[NOT GENERATED]" (emptyTrace r)) := by
    simp only [ProcessRequest]
    rw [hiss]
    simp [assertString, h2]
  rw [hpr]
  exact ⟨rfl, rfl, rfl, rfl, rfl⟩

theorem c7_witness :
    assocGet testEnv.provider_client_policymap "https://rogue.example.com" = none ∧
    ((ProcessRequest testEnv []
         (some ⟨"user-9", [("iss", .vstr "https://rogue.example.com"),
                           ("aud", .vstr "client1")]⟩)).1
       = .response (some "Key not authorised") 403 ∧
     (ProcessRequest testEnv []
         (some ⟨"user-9", [("iss", .vstr "https://rogue.example.com"),
                           ("aud", .vstr "client1")]⟩)).2.loginFailures
       = ["[NOT GENERATED]"] ∧
     (ProcessRequest testEnv []
         (some ⟨"user-9", [("iss", .vstr "https://rogue.example.com"),
                           ("aud", .vstr "client1")]⟩)).2.sessionLookups = [] ∧
     (ProcessRequest testEnv []
         (some ⟨"user-9", [("iss", .vstr "https://rogue.example.com"),
                           ("aud", .vstr "client1")]⟩)).2.policyEngineCalls = [] ∧
     (ProcessRequest testEnv []
         (some ⟨"user-9", [("iss", .vstr "https://rogue.example.com"),
                           ("aud", .vstr "client1")]⟩)).2.upserts = []) :=
  ⟨by decide,
   c7_unregistered_issuer testEnv []
     ⟨"user-9", [("iss", .vstr "https://rogue.example.com"),
                 ("aud", .vstr "client1")]⟩
     "https://rogue.example.com" (by decide) (by decide)⟩

/-- C8: a verified token carrying neither an `iss` claim nor an `aud`
claim fails with status 403 and an error, and triggers exactly one
audit login-failure event, carrying the fixed placeholder identifier
"[NOT GENERATED]". -/
theorem c8_no_issuer_no_audience (env : Env) (r : Ctx) (tok : UserToken)
    (hi : assocGet tok.Claims "iss" = none)
    (ha : assocGet tok.Claims "aud" = none) :
    (ProcessRequest env r (some tok)).1 = .response (some "Key not authorised") 403 ∧
    (ProcessRequest env r (some tok)).2.loginFailures = ["[NOT GENERATED]"] ∧
    (ProcessRequest env r (some tok)).2.healthKeyFailures = 1 := by
  have hpr : ProcessRequest env r (some tok)
      = (.response (some "Key not authorised") 403,
         reportLoginFailure "[NOT GENERATED]" (emptyTrace r)) := by
    simp only [ProcessRequest]
    simp [mapGet2, hi, ha]
  rw [hpr]
  exact ⟨rfl, rfl, rfl⟩

theorem c8_witness :
    assocGet (⟨"user-9", [("sub", .vstr "user-9")]⟩ : UserToken).Claims "iss" = none ∧
    assocGet (⟨"user-9", [("sub", .vstr "user-9")]⟩ : UserToken).Claims "aud" = none ∧
    ((ProcessRequest testEnv [] (some ⟨"user-9", [("sub", .vstr "user-9")]⟩)).1
       = .response (some "Key not authorised") 403 ∧
     (ProcessRequest testEnv []
         (some ⟨"user-9", [("sub", .vstr "user-9")]⟩)).2.loginFailures
       = ["[NOT GENERATED]"] ∧
     (ProcessRequest testEnv []
         (some ⟨"user-9", [("sub", .vstr "user-9")]⟩)).2.healthKeyFailures = 1) :=
  ⟨by decide, by decide,
   c8_no_issuer_no_audience testEnv [] ⟨"user-9", [("sub", .vstr "user-9")]⟩
     (by decide) (by decide)⟩

/-- C9 counterexample: the claim that, with context-variable flattening
enabled, every successful request writes every claim under
"jwt_claims_"-prefixed keys and the session identifier under "token"
into the shared request context is false: on a request whose context
carries no context-data object, the request succeeds but nothing is
written — afterwards the context still has no context-data entry at
all, so in particular the "sub" claim is not retrievable under
"jwt_claims_sub". -/
theorem c9_counterexample :
    ({ testEnv with EnableContextVars := true } : Env).EnableContextVars = true ∧
    (ProcessRequest { testEnv with EnableContextVars := true } []
        (some ⟨"user-9",
               [("iss", .vstr "https://idp.example.com"), ("aud", .vstr "client1"),
                ("sub", .vstr "user-9")]⟩)).1 = .response none 200 ∧
    assocGet (ProcessRequest { testEnv with EnableContextVars := true } []
        (some ⟨"user-9",
               [("iss", .vstr "https://idp.example.com"), ("aud", .vstr "client1"),
                ("sub", .vstr "user-9")]⟩)).2.ctx CtxKey.ContextData = none := by
  decide

/-- C9 amended: when context-variable flattening is enabled, the
request context already carries a context-data object, and this
middleware is the designated base identity provider, a successful
request (one that reuses a stored session or materializes one from the
policy engine) writes every claim of the verified token into the
context-data object under "jwt_claims_" ++ claimName, writes the
derived session identifier under "token", and preserves every
pre-existing entry whose key is none of the written keys. -/
theorem c9_context_flattening (env : Env) (r : Ctx) (tok : UserToken)
    (issStr : String) (clientSet : List (String × String))
    (clientID policyID : String) (m0 : List (String × GoVal)) (ss : SessionState)
    (h1 : assocGet tok.Claims "iss" = some (.vstr issStr))
    (h2 : assocGet env.provider_client_policymap issStr = some clientSet)
    (h3 : resolveAudience clientSet (mapGet2 tok.Claims "aud").1
            = some (clientID, policyID))
    (h4 : policyID ≠ "")
    (hev : env.EnableContextVars = true)
    (hbase : env.BaseIdentityProvidedBy = .OIDCUser
             ∨ env.BaseIdentityProvidedBy = .UnsetAuth)
    (hctx : assocGet r CtxKey.ContextData = some (.dataMap m0))
    (hnd : (tok.Claims.map Prod.fst).Nodup)
    (hmat : assocGet env.sessionStore (sessionIDFor env clientID tok.UserID) = some ss
            ∨ (assocGet env.sessionStore (sessionIDFor env clientID tok.UserID) = none
               ∧ env.policyEngine policyID env.OrgID = some ss)) :
    (ProcessRequest env r (some tok)).1 = .response none 200 ∧
    ∃ m', assocGet (ProcessRequest env r (some tok)).2.ctx CtxKey.ContextData
          = some (.dataMap m')
      ∧ (∀ n v, assocGet tok.Claims n = some v
           → assocGet m' ("jwt_claims_" ++ n) = some v)
      ∧ assocGet m' "token" = some (.vstr (sessionIDFor env clientID tok.UserID))
      ∧ (∀ k w, assocGet m0 k = some w → k ≠ "token"
           → (∀ n ∈ tok.Claims.map Prod.fst, k ≠ "jwt_claims_" ++ n)
           → assocGet m' k = some w) := by
  have key : ∃ ssx : SessionState,
      ProcessRequest env r (some tok)
        = ((.response none 200 : PRStatus),
           ((ProcessRequest env r (some tok)).2)) ∧
      (ProcessRequest env r (some tok)).2.ctx
        = assocSet (assocSet (assocSet r CtxKey.SessionData (.session ssx))
            CtxKey.AuthHeaderValue
            (.str (sessionIDFor env clientID tok.UserID)))
            CtxKey.ContextData
            (.dataMap (assocSet (flattenClaims tok.Claims m0) "token"
              (.vstr (sessionIDFor env clientID tok.UserID)))) := by
    rcases hmat with hs | ⟨hs, he⟩
    · refine ⟨ss, ?_⟩
      rw [pr_resolve env r tok issStr clientSet clientID policyID h1 h2 h3,
        mat_store_hit env r tok clientID policyID ss h4 hs,
        finalize_eval env r tok _ ss _ m0 hev hbase hctx]
      exact ⟨rfl, rfl⟩
    · refine ⟨{ ss with
          MetaData := [("TykJWTSessionID", sessionIDFor env clientID tok.UserID),
                       ("ClientID", clientID)],
          Alias := clientID ++ ":" ++ tok.UserID }, ?_⟩
      rw [pr_resolve env r tok issStr clientSet clientID policyID h1 h2 h3,
        mat_engine_ok env r tok clientID policyID ss h4 hs he,
        finalize_eval env r tok _ _ _ m0 hev hbase hctx]
      exact ⟨rfl, rfl⟩
  obtain ⟨ssx, hstat, hcx⟩ := key
  refine ⟨congrArg Prod.fst hstat,
    assocSet (flattenClaims tok.Claims m0) "token"
      (.vstr (sessionIDFor env clientID tok.UserID)), ?_, ?_, ?_, ?_⟩
  · rw [hcx]
    exact assocGet_assocSet_self _ _ _
  · intro n v hv
    rw [assocGet_assocSet_ne _ _ (fun h => token_ne_claimKey n h.symm)]
    exact flattenClaims_claim tok.Claims m0 n v hnd hv
  · exact assocGet_assocSet_self _ _ _
  · intro k w hw hk hks
    rw [assocGet_assocSet_ne _ _ hk,
      flattenClaims_other tok.Claims m0 k
        (fun p hp => hks p.1 (List.mem_map_of_mem Prod.fst hp))]
    exact hw

theorem c9_witness :
    ({ testEnv with EnableContextVars := true } : Env).EnableContextVars = true ∧
    assocGet [(CtxKey.ContextData, CtxVal.dataMap [("pre", .vnum 7)])]
        CtxKey.ContextData = some (.dataMap [("pre", .vnum 7)]) ∧
    ((ProcessRequest { testEnv with EnableContextVars := true }
         [(CtxKey.ContextData, CtxVal.dataMap [("pre", .vnum 7)])]
         (some testTok)).1 = .response none 200 ∧
     ∃ m', assocGet (ProcessRequest { testEnv with EnableContextVars := true }
             [(CtxKey.ContextData, CtxVal.dataMap [("pre", .vnum 7)])]
             (some testTok)).2.ctx CtxKey.ContextData
           = some (.dataMap m')
       ∧ (∀ n v, assocGet testTok.Claims n = some v
            → assocGet m' ("jwt_claims_" ++ n) = some v)
       ∧ assocGet m' "token"
           = some (.vstr (sessionIDFor { testEnv with EnableContextVars := true }
               "client1" testTok.UserID))
       ∧ (∀ k w, assocGet [("pre", (.vnum 7 : GoVal))] k = some w → k ≠ "token"
            → (∀ n ∈ testTok.Claims.map Prod.fst, k ≠ "jwt_claims_" ++ n)
            → assocGet m' k = some w)) :=
  ⟨by decide, by decide,
   c9_context_flattening { testEnv with EnableContextVars := true }
     [(CtxKey.ContextData, CtxVal.dataMap [("pre", .vnum 7)])]
     testTok "https://idp.example.com"
     [("client1", "pol-42"), ("client2", "pol-43")] "client1" "pol-42"
     [("pre", .vnum 7)] ⟨"tmpl42", [], ""⟩
     (by decide) (by decide) (by decide) (by decide) (by decide)
     (Or.inl (by decide)) (by decide) (by decide)
     (Or.inr ⟨rfl, by decide⟩)⟩

/-- C10: a verified token that carries an `aud` claim but no `iss`
claim is not caught by the missing-claims guard (which requires both to
be absent); the unchecked type assertion of the absent issuer value to
string then makes execution panic instead of producing an
(error, 403) result. -/
theorem c10_missing_issuer_panics :
    assocGet (⟨"user-9", [("aud", .vstr "client1")]⟩ : UserToken).Claims "iss"
        = none ∧
    assocGet (⟨"user-9", [("aud", .vstr "client1")]⟩ : UserToken).Claims "aud"
        = some (.vstr "client1") ∧
    (ProcessRequest testEnv [] (some ⟨"user-9", [("aud", .vstr "client1")]⟩)).1
        = .panic := by
  decide
